import Mathlib

/-!
# Verification of the gitdata paginated-fetch-and-field-projection engine

Shallow embedding of the core of `src/gitdata.py` (the `gitdata` CLI of the
dmahugh/github repository): Python JSON values, the field projector
(`data_fields`, `default_fields`), the sort key (`data_sort`) and the sort
performed by the subcommand handlers, the link-header parser (`pagination`),
the paginated fetch loop (`github_data_from_api`), the cache layer
(`cache_filename`, `cache_exists`, `cache_update`) and the source selector
(`github_data`) together with the `_settings` session state it mutates.

Python strings are embedded as Lean `String`s; the Python string operations
used by the source (`split`, `strip`, `replace`, `endswith`, `lower`,
slicing, `in`) are defined here with Python's semantics.  Python dicts /
`collections.OrderedDict` objects are embedded as association lists in
insertion order (`Row`), with assignment `d[k] = v` updating the value in
place when the key is present and appending otherwise, exactly as Python's
insertion-ordered dicts behave.
-/

namespace Gitdata

/-- A Python/JSON value as handled by gitdata: the JSON payloads returned by
the GitHub API, the values stored in projected rows, and the entries of the
`pagination` dictionary (`None`, booleans, ints, strings, lists, dicts). -/
inductive PyVal where
  | null : PyVal
  | bool : Bool → PyVal
  | int : Int → PyVal
  | str : String → PyVal
  | list : List PyVal → PyVal
  | dict : List (String × PyVal) → PyVal

/-- A Python dict / `collections.OrderedDict` with string keys, in insertion
order.  This is the shape of one JSON record from the API, of the `constants`
argument, and of one projected output row of `data_fields`. -/
abbrev Row := List (String × PyVal)

/-- Python `d[k] = v` on an insertion-ordered dict: if `k` is present its
value is updated in place (position kept), otherwise `(k, v)` is appended. -/
def odSet (row : Row) (k : String) (v : PyVal) : Row :=
  match row with
  | [] => [(k, v)]
  | p :: rest => if p.1 = k then (k, v) :: rest else p :: odSet rest k v

/-- Python `d[k]` lookup (first matching key), as an `Option`:
`none` models the `KeyError` case. -/
def odLookup (row : Row) (k : String) : Option PyVal :=
  match row with
  | [] => Option.none
  | p :: rest => if p.1 = k then some p.2 else odLookup rest k

/-- Python `k in d`. -/
def odHas (row : Row) (k : String) : Bool :=
  (odLookup row k).isSome

/-- The keys of a dict, in order (Python `list(d.keys())`). -/
def keysOf (row : Row) : List String :=
  row.map Prod.fst

/-- Python truthiness of a value (`if x:`): `None`, `False`, `0`, `""`,
`[]` and the empty dict are falsy, everything else is truthy. -/
def pyTruthy : PyVal → Bool
  | .null => false
  | .bool b => b
  | .int n => n != 0
  | .str s => s != ""
  | .list l => !l.isEmpty
  | .dict d => !d.isEmpty

/-- Python `s.split(sep)` for a single-character separator (the source only
splits on `','`, `';'`, `'='`, `'?'` and `'.'`): splits on every occurrence,
keeping empty parts, always returning at least one part. -/
def pySplitChars (sep : Char) : List Char → List (List Char)
  | [] => [[]]
  | c :: rest =>
    match pySplitChars sep rest with
    | [] => [[]]
    | p :: ps => if c = sep then [] :: p :: ps else (c :: p) :: ps

/-- Python `s.split(sep)` on strings, single-character separator. -/
def pySplit (s : String) (sep : Char) : List String :=
  (pySplitChars sep s.toList).map List.asString

/-- Python `s.strip()` (whitespace strip; gitdata only strips ASCII
whitespace produced by HTTP headers). -/
def pyTrim (s : String) : String :=
  (((s.toList.dropWhile Char.isWhitespace).reverse.dropWhile
      Char.isWhitespace).reverse).asString

/-- Python `s.strip(c)` for a single strip character (the source uses
`.strip('-')`). -/
def pyStripChar (c : Char) (s : String) : String :=
  (((s.toList.dropWhile (· = c)).reverse.dropWhile (· = c)).reverse).asString

/-- Python `s.replace(old, new)` for single characters (the source replaces
`'/'` by `'-'` and `'.'` by `'_'`): replaces every occurrence. -/
def pyReplaceChar (old new : Char) (s : String) : String :=
  (s.toList.map (fun c => if c = old then new else c)).asString

/-- Python `s.endswith(suffix)`. -/
def pyEndswith (s suffix : String) : Bool :=
  suffix.toList.isSuffixOf s.toList

/-- Python `c in s` for a single character. -/
def pyContains (s : String) (c : Char) : Bool :=
  s.toList.contains c

/-- Python `s.lower()` (ASCII case folding; all field and entity names in
gitdata are ASCII). -/
def pyLower (s : String) : String :=
  (s.toList.map Char.toLower).asString

/-- Python `s[1:-1]`: drop the first and the last character. -/
def pySlice1m1 (s : String) : String :=
  ((s.toList.drop 1).dropLast).asString

mutual
/-- Python `repr` of a value as used by `str()` on containers (string
escaping inside `repr` is simplified to plain quoting; gitdata only ever
stringifies scalar sort keys). -/
def pyRepr : PyVal → String
  | .null => "None"
  | .bool b => if b then "True" else "False"
  | .int n => toString n
  | .str s => "'" ++ s ++ "'"
  | .list l => "[" ++ pyReprList l ++ "]"
  | .dict d => "\x7b" ++ pyReprDict d ++ "\x7d"

/-- Comma-separated `repr` of list elements. -/
def pyReprList : List PyVal → String
  | [] => ""
  | [v] => pyRepr v
  | v :: rest => pyRepr v ++ ", " ++ pyReprList rest

/-- Comma-separated `repr` of dict entries. -/
def pyReprDict : List (String × PyVal) → String
  | [] => ""
  | [kv] => "'" ++ kv.1 ++ "': " ++ pyRepr kv.2
  | kv :: rest => "'" ++ kv.1 ++ "': " ++ pyRepr kv.2 ++ ", " ++ pyReprDict rest
end

/-- Python `str(v)`. -/
def pyStr : PyVal → String
  | .str s => s
  | v => pyRepr v

/-- Python `<` on strings: lexicographic comparison by code point, a proper
prefix being smaller. -/
def pyCharsLt : List Char → List Char → Bool
  | [], [] => false
  | [], _ :: _ => true
  | _ :: _, [] => false
  | a :: as, b :: bs =>
    if a.toNat < b.toNat then true
    else if b.toNat < a.toNat then false
    else pyCharsLt as bs

/-- Python `<` on strings. -/
def pyStrLt (a b : String) : Bool :=
  pyCharsLt a.toList b.toList

/-- `default_fields(entity)` of gitdata.py: the default field names
substituted by `data_fields` when no field list is supplied. -/
def default_fields (entity : String) : List String :=
  if entity = "member" then ["login", "id", "type", "site_admin"]
  else if entity = "repo" then ["name", "owner.login"]
  else if entity = "team" then ["name", "id", "privacy", "permission"]
  else if entity = "org" then ["login", "user"]
  else if entity = "collab" then ["login", "owner", "repo", "id"]
  else ["name"]

/-- The wildcard-mode inclusion test of `data_fields`: the condition
`fields[0] == '*' or (fields[0] == 'urls' and fldname.endswith('url')) or
(fields[0] == 'nourls' and not fldname.endswith('url'))` deciding whether a
record key is copied to the output row. -/
def wildcard_keep (f0 fldname : String) : Bool :=
  f0 == "*" || (f0 == "urls" && pyEndswith fldname "url")
    || (f0 == "nourls" && !pyEndswith fldname "url")

/-- The `for fldname in jsondata` loop of `data_fields`'s wildcard branch:
walks the record's keys in order, copying each key selected by
`wildcard_keep` into `values`; in `'nourls'` mode a value that is itself a
dict has its own `*url`-suffixed keys removed (the dict comprehension of the
source).  `iter` is the remaining portion of the key iteration, `jsondata`
the whole record (`this_item = jsondata[fldname]`). -/
def wildcard_fold (f0 : String) (jsondata : Row) : List (String × PyVal) → Row → Row
  | [], values => values
  | kv :: iter, values =>
    let fldname := kv.1
    if wildcard_keep f0 fldname then
      let this_item := (odLookup jsondata fldname).getD .null
      let item2 := match this_item with
        | .dict d => if f0 == "nourls"
            then PyVal.dict (d.filter fun q => !pyEndswith q.1 "url")
            else this_item
        | _ => this_item
      wildcard_fold f0 jsondata iter (odSet values fldname item2)
    else wildcard_fold f0 jsondata iter values

/-- The wildcard branch of `data_fields`: `values` starts empty, receives
`constants` first (`values.update(constants)`) when constants are supplied
and the mode is `'*'` or `'nourls'` (never for `'urls'`), then the record's
keys are walked by `wildcard_fold`. -/
def wildcard_row (f0 : String) (jsondata constants : Row) : Row :=
  let values0 : Row :=
    if !constants.isEmpty && (f0 == "*" || f0 == "nourls")
    then constants.foldl (fun v kv => odSet v kv.1 kv.2) []
    else []
  wildcard_fold f0 jsondata jsondata values0

/-- One iteration of the exact-list loop of `data_fields`, processing field
name `fldname` against the record and the constants, threading `(values,
unknownfieldname)`:
constants take precedence; a dotted name `parent.child` looks up
`jsondata[parent][child]` and converts any `TypeError`/`KeyError` to a
`None` value under the flattened key (`.` replaced by `_`); a plain name
copies `jsondata[fldname]`, coercing a field whose lower-cased name is
`private` to the string `'private'`/`'public'` by truthiness; a plain name
absent from the record raises `KeyError`, which is caught and recorded in
`_settings.unknownfieldname` without touching `values`. -/
def data_fields_step (jsondata constants : Row) :
    Row × Option String → String → Row × Option String
  | (values, unk), fldname =>
    if !constants.isEmpty && odHas constants fldname then
      (odSet values fldname ((odLookup constants fldname).getD .null), unk)
    else if pyContains fldname '.' then
      let flat := pyReplaceChar '.' '_' fldname
      let parent := (pySplit fldname '.').headD ""
      let child := (pySplit fldname '.').getD 1 ""
      match odLookup jsondata parent with
      | Option.none => (odSet values flat .null, unk)
      | Option.some pv =>
        match pv with
        | .dict d =>
          match odLookup d child with
          | Option.some v => (odSet values flat v, unk)
          | Option.none => (odSet values flat .null, unk)
        | _ => (odSet values flat .null, unk)
    else
      match odLookup jsondata fldname with
      | Option.none => (values, some fldname)
      | Option.some v =>
        let values1 := odSet values fldname v
        if pyLower fldname = "private" then
          (odSet values1 fldname
            (if pyTruthy v then .str "private" else .str "public"), unk)
        else (values1, unk)

/-- The `for fldname in fields` loop of `data_fields`'s exact-list branch. -/
def exact_fold (jsondata constants : Row) :
    List String → Row × Option String → Row × Option String
  | [], acc => acc
  | fldname :: rest, acc =>
    exact_fold jsondata constants rest (data_fields_step jsondata constants acc fldname)

/-- `data_fields(entity=…, jsondata=…, fields=…, constants=…)` of
gitdata.py, the field projector.  `jsondata` is one JSON record (the claims
concern object records, the shape returned by the collection endpoints);
`fields0 = []` models an absent/empty field list (`if not fields`),
`constants = []` an absent/empty constants dict.  The extra argument and
result `unk` thread the process-wide `_settings.unknownfieldname` slot
written by the `except KeyError` handler. -/
def data_fields (entity : String) (jsondata : Row) (fields0 : List String)
    (constants : Row) (unk0 : Option String) : Row × Option String :=
  let fields := if fields0.isEmpty then default_fields entity else fields0
  let f0 := fields.headD ""
  if f0 == "*" || f0 == "urls" || f0 == "nourls" then
    (wildcard_row f0 jsondata constants, unk0)
  else
    exact_fold jsondata constants fields ([], unk0)

/-- `data_sort(datadict)` of gitdata.py: the sort key of a projected row —
the value of the row's *first* key, stringified and lower-cased.  (On an
empty row the source raises `IndexError`; theorems about sorting therefore
assume non-empty rows.) -/
def data_sort (row : Row) : String :=
  let sortkey := (keysOf row).headD ""
  pyLower (pyStr ((odLookup row sortkey).getD .null))

/-- Insertion step of a stable sort by `data_sort`: `x` is placed after
every already-sorted row whose key is strictly smaller, before the first
row whose key is not (Python string `<`). -/
def insertRow (x : Row) : List Row → List Row
  | [] => [x]
  | y :: ys =>
    if pyStrLt (data_sort y) (data_sort x) then y :: insertRow x ys
    else x :: y :: ys

/-- `sorted(rows, key=data_sort)` as used by the `repos`/`members`/`teams`/
`orgs`/`collabs` handlers: Python's `sorted` is a stable sort comparing keys
with `<`; it is embedded as a stable insertion sort by `data_sort`. -/
def sortRows (rows : List Row) : List Row :=
  rows.foldr insertRow []

/-- The dictionary `pagination` starts from: all four page slots `0`, all
four URL slots `None` (the literal at the top of the source function, in
source order). -/
def pagination_init : Row :=
  [("firstpage", .int 0), ("firstURL", .null),
   ("prevpage", .int 0), ("prevURL", .null),
   ("nextpage", .int 0), ("nextURL", .null),
   ("lastpage", .int 0), ("lastURL", .null)]

/-- The parsing loop of `pagination` applied to a `link` header string:
split on `','`; for each link, `linktype` is the quoted `rel` value
(`link.split(';')[-1].split('=')[-1].strip()[1:-1]`), `url` the
angle-bracketed URL (`link.split(';')[0].strip()[1:-1]`), `pageno` the value
after the last `=` of the URL's query string; the dictionary entries
`<linktype>page` and `<linktype>URL` are then assigned in that order. -/
def pagination_parse (link_string : String) : Row :=
  (pySplit link_string ',').foldl
    (fun retval link =>
      let linktype := pySlice1m1 (pyTrim
        (((pySplit ((pySplit link ';').getLastD "") '=').getLastD "")))
      let url := pySlice1m1 (pyTrim ((pySplit link ';').headD ""))
      let pageno := pyTrim
        (((pySplit ((pySplit url '?').getLastD "") '=').getLastD ""))
      odSet (odSet retval (linktype ++ "page") (.str pageno))
        (linktype ++ "URL") (.str url))
    pagination_init

/-- One HTTP response as seen by gitdata: the status code, the parsed JSON
array of the body (the collection endpoints return JSON arrays of objects;
the body is unused for failed pages), the optional `Link` header, and the
two optional `X-RateLimit-*` headers read by `github_api`. -/
structure Response where
  status : Nat
  body : List Row
  link : Option String
  ratelimit : Option (Nat × Nat)

/-- `response.ok` of the requests library: true exactly when the status
code is below 400 (no `HTTPError` raised by `raise_for_status`). -/
def response_ok (r : Response) : Bool :=
  r.status < 400

/-- `pagination(response)` of gitdata.py: extract the `Link` header if
present (a missing header returns the initial dictionary — the terminal
condition of the fetch loop) and parse it. -/
def pagination (r : Response) : Row :=
  match r.link with
  | Option.none => pagination_init
  | Option.some s => pagination_parse s

/-- `pagelinks['nextURL']` as read by the fetch loop. -/
def nextEndpoint (r : Response) : PyVal :=
  (odLookup (pagination r) "nextURL").getD .null

/-- The `_settings` session state of gitdata.py that the claims observe:
authentication username, data-source selector, and the four session
counters.  `unknownfieldname` is the diagnostic slot set by `data_fields`
(absent until first set, modelled as `Option`). -/
structure Session where
  username : String
  datasource : String
  tot_api_calls : Nat
  tot_api_bytes : Nat
  last_ratelimit : Nat
  last_remaining : Nat
  unknownfieldname : Option String
deriving DecidableEq

/-- The session effect of one `github_api` call: the two `X-RateLimit-*`
response headers overwrite `last_ratelimit`/`last_remaining`; if they are
absent the `KeyError` handler stores the sentinel `999999` instead.
(`tot_api_calls`/`tot_api_bytes` are initialized but never mutated in
gitdata.py.) -/
def github_api_update (s : Session) (r : Response) : Session :=
  match r.ratelimit with
  | Option.some lr => { s with last_ratelimit := lr.1, last_remaining := lr.2 }
  | Option.none => { s with last_ratelimit := 999999, last_remaining := 999999 }

/-- `github_data_from_api(endpoint, headers)` of gitdata.py, the paginated
fetch loop, over the sequence of responses the successive transport calls
return: each iteration calls `github_api` (whose session effect is
threaded), appends the parsed body to the payload when `response.ok`, parses
the response's pagination header, and continues with the `next` URL; the
loop breaks when that URL is falsy (`if not page_endpoint`).  Returns the
accumulated payload, the final session and the number of transport calls
made.  Totality of this definition is the termination half of the
pagination-termination property: the loop consumes one response per
iteration and stops at the first response without a truthy next cursor. -/
def github_data_from_api : Session → List Response → List Row × Session × Nat
  | s, [] => ([], s, 0)
  | s, r :: rest =>
    let s1 := github_api_update s r
    let page := if response_ok r then r.body else []
    if pyTruthy (nextEndpoint r) then
      let res := github_data_from_api s1 rest
      (page ++ res.1, res.2.1, res.2.2 + 1)
    else (page, s1, 1)

/-- `cache_filename(endpoint, auth)` of gitdata.py: a falsy `auth` (absent
or empty) falls back to `_settings.username`, or `'_anon'` when that is
empty too; the filename is `<auth>_<endpoint with '/' replaced by '-' and
leading/trailing '-' stripped>.json` inside the `gh_cache` folder.  (The
machine-dependent absolute source-folder prefix of `os.path.join` is
omitted; it is constant within a session.) -/
def cache_filename (endpoint : String) (auth : Option String)
    (username : String) : String :=
  let a := match auth with
    | Option.some s => if s ≠ "" then s
        else if username ≠ "" then username else "_anon"
    | Option.none => if username ≠ "" then username else "_anon"
  "gh_cache/" ++ a ++ "_" ++ pyStripChar '-' (pyReplaceChar '/' '-' endpoint)
    ++ ".json"

/-- The local cache: the `gh_cache` folder as a map from filename to the
JSON record list stored in that file. -/
abbrev Cache := List (String × List Row)

/-- File lookup in the cache folder. -/
def cacheGet (cache : Cache) (fname : String) : Option (List Row) :=
  match cache with
  | [] => Option.none
  | p :: rest => if p.1 = fname then some p.2 else cacheGet rest fname

/-- `cache_exists(endpoint)` of gitdata.py: `os.path.isfile` on the cache
filename derived with the session username. -/
def cache_exists (cache : Cache) (endpoint : String) (username : String) : Bool :=
  (cacheGet cache (cache_filename endpoint Option.none username)).isSome

/-- The record list that `cache_update` persists.  When constants are
supplied, the source loop executes `data_item[fldname] = constants[fldname]`
for every record: this mutates the record dicts of `payload` *in place*, so
although `write_json(source=payload, …)` is passed `payload` (not the
`cached_data` list the loop builds from the same objects), the list written
is the constants-merged one. -/
def cache_update_payload (payload : List Row) (constants : Row) : List Row :=
  if !constants.isEmpty then
    payload.map (fun item =>
      constants.foldl
        (fun it kv => odSet it kv.1 ((odLookup constants kv.1).getD .null)) item)
  else payload

/-- `cache_update(endpoint, payload, constants)` of gitdata.py as a write
effect: the filename (derived from the endpoint with the session username)
and the record list written there.  `write_json` returns without writing
when its source list is empty (`if not source or not filename: return`), so
an empty payload produces no write. -/
def cache_update (endpoint : String) (payload : List Row) (constants : Row)
    (username : String) : Option (String × List Row) :=
  let written := cache_update_payload payload constants
  if written.isEmpty then Option.none
  else some (cache_filename endpoint Option.none username, written)

/-- The projection loop at the end of `github_data`: apply `data_fields` to
every raw record, threading the `unknownfieldname` slot. -/
def project_all (entity : String) (fields : List String) (constants : Row)
    (items : List Row) (unk0 : Option String) : List Row × Option String :=
  items.foldl
    (fun acc item =>
      let pr := data_fields entity item fields constants acc.2
      (acc.1 ++ [pr.1], pr.2))
    ([], unk0)

/-- The observable outcome of one `github_data` call: the projected rows
returned, the session state afterwards, the cache write performed (if any),
the number of transport calls made, and the abnormal outcomes (`sys.exit`
on the interactive `x` choice; `cacheMissError` for the
`ERROR: cached data requested, but none found` path, which returns `[]`;
`crashed` for the uncaught `FileNotFoundError` when an interactive `c`
choice is given without a cache file). -/
structure GDResult where
  rows : List Row
  session : Session
  cacheWrite : Option (String × List Row)
  apiCalls : Nat
  exited : Bool
  cacheMissError : Bool
  crashed : Bool

/-- `github_data(endpoint=…, entity=…, fields=…, constants=…)` of
gitdata.py, the three-way source selector: `_settings.datasource` is
`"a"` (API), `"c"` (cache) or anything else (prompt; the operator's
lower-cased reply is the `choice` argument).  The cache-only mode requires
the cache file to exist; live mode runs the paginated fetch loop over
`responses` and then writes the cache; cache mode reads the cache file and
makes no transport call; both paths end by projecting every raw record with
`data_fields`.  (In live mode the record dicts that `github_data` goes on to
project are the same objects `cache_update` just mutated, so the projection
input is the constants-merged payload.) -/
def github_data (endpoint entity : String) (fields : List String)
    (constants : Row) (s : Session) (cache : Cache)
    (responses : List Response) (choice : String) : GDResult :=
  let fname := cache_filename endpoint Option.none s.username
  if s.datasource = "c" && !(cacheGet cache fname).isSome then
    { rows := [], session := s, cacheWrite := Option.none, apiCalls := 0,
      exited := false, cacheMissError := true, crashed := false }
  else
    let read_from := if s.datasource = "a" then "a"
      else if s.datasource = "c" then "c"
      else pyLower choice
    if read_from = "x" then
      { rows := [], session := s, cacheWrite := Option.none, apiCalls := 0,
        exited := true, cacheMissError := false, crashed := false }
    else if read_from = "a" then
      let (payload, s1, n) := github_data_from_api s responses
      let wr := cache_update endpoint payload constants s.username
      let all_fields := cache_update_payload payload constants
      let (rows, unk) := project_all entity fields constants all_fields s1.unknownfieldname
      { rows := rows, session := { s1 with unknownfieldname := unk },
        cacheWrite := wr, apiCalls := n,
        exited := false, cacheMissError := false, crashed := false }
    else if read_from = "c" then
      match cacheGet cache fname with
      | Option.some items =>
        let (rows, unk) := project_all entity fields constants items s.unknownfieldname
        { rows := rows, session := { s with unknownfieldname := unk },
          cacheWrite := Option.none, apiCalls := 0,
          exited := false, cacheMissError := false, crashed := false }
      | Option.none =>
        { rows := [], session := s, cacheWrite := Option.none, apiCalls := 0,
          exited := false, cacheMissError := false, crashed := true }
    else
      { rows := [], session := s, cacheWrite := Option.none, apiCalls := 0,
        exited := false, cacheMissError := false, crashed := false }

/-- The shape of a response sequence walked to completion by the fetch
loop: every response except the last announces a truthy `next` cursor, and
the final response carries no `Link` header (the terminal condition of the
pagination-termination property). -/
def WellPaged : List Response → Prop
  | [] => True
  | [r] => r.link = Option.none
  | r :: rest => pyTruthy (nextEndpoint r) = true ∧ WellPaged rest

/-! ## Helper lemmas about the embedded dict operations -/

theorem odLookup_odSet_self (row : Row) (k : String) (v : PyVal) :
    odLookup (odSet row k v) k = some v := by
  induction row with
  | nil => simp [odSet, odLookup]
  | cons p rest ih =>
    by_cases h : p.1 = k
    · simp [odSet, odLookup, h]
    · simp [odSet, odLookup, h, ih]

theorem odLookup_odSet_ne (row : Row) (k : String) (v : PyVal) (a : String)
    (h : a ≠ k) : odLookup (odSet row k v) a = odLookup row a := by
  induction row with
  | nil => simp [odSet, odLookup, Ne.symm h]
  | cons p rest ih =>
    by_cases hpk : p.1 = k
    · have hpa : ¬ p.1 = a := by rw [hpk]; exact Ne.symm h
      simp only [odSet, if_pos hpk, odLookup]
      rw [if_neg (Ne.symm h), if_neg hpa]
    · simp only [odSet, if_neg hpk, odLookup]
      by_cases hpa : p.1 = a
      · rw [if_pos hpa, if_pos hpa]
      · rw [if_neg hpa, if_neg hpa]
        exact ih

theorem mem_keysOf_odSet (row : Row) (k : String) (v : PyVal) (a : String) :
    a ∈ keysOf (odSet row k v) ↔ a ∈ keysOf row ∨ a = k := by
  induction row with
  | nil => simp [odSet, keysOf, eq_comm]
  | cons p rest ih =>
    by_cases h : p.1 = k
    · subst h
      simp [odSet, keysOf, eq_comm]
      tauto
    · simp [odSet, keysOf, h] at ih ⊢
      tauto

theorem odLookup_self_of_nodup (cs : Row) (hn : (keysOf cs).Nodup) :
    ∀ kv ∈ cs, odLookup cs kv.1 = some kv.2 := by
  induction cs with
  | nil => simp
  | cons p rest ih =>
    intro kv hkv
    simp only [keysOf, List.map_cons, List.nodup_cons] at hn
    rcases List.mem_cons.mp hkv with h | h
    · subst h
      simp [odLookup]
    · have hne : kv.1 ≠ p.1 := by
        intro he
        exact hn.1 (he ▸ List.mem_map_of_mem Prod.fst h)
      simp only [odLookup]
      rw [if_neg (fun hc => hne hc.symm)]
      exact ih hn.2 kv h

/-! ## Helper lemmas about the Python string order and the stable sort -/

theorem pyCharsLt_asymm (a : List Char) : ∀ b, pyCharsLt a b = true →
    pyCharsLt b a = false := by
  induction a with
  | nil =>
    intro b h
    cases b with
    | nil => simp [pyCharsLt] at h
    | cons y ys => simp [pyCharsLt]
  | cons x xs ih =>
    intro b h
    cases b with
    | nil => simp [pyCharsLt] at h
    | cons y ys =>
      simp only [pyCharsLt] at h ⊢
      rcases Nat.lt_trichotomy x.toNat y.toNat with hlt | heq | hgt
      · have hyx : ¬ y.toNat < x.toNat := by omega
        rw [if_neg hyx, if_pos hlt]
      · have h1 : ¬ x.toNat < y.toNat := by omega
        have h2 : ¬ y.toNat < x.toNat := by omega
        rw [if_neg h1, if_neg h2] at h
        rw [if_neg h2, if_neg h1]
        exact ih ys h
      · have h1 : ¬ x.toNat < y.toNat := by omega
        rw [if_neg h1, if_pos hgt] at h
        exact absurd h (by simp)

theorem pyCharsLt_negtrans (a : List Char) : ∀ b c, pyCharsLt b a = false →
    pyCharsLt c b = false → pyCharsLt c a = false := by
  induction a with
  | nil =>
    intro b c h1 h2
    cases c with
    | nil => simp [pyCharsLt]
    | cons z zs => simp [pyCharsLt]
  | cons x xs ih =>
    intro b c h1 h2
    cases b with
    | nil => simp [pyCharsLt] at h1
    | cons y ys =>
      cases c with
      | nil => simp [pyCharsLt] at h2
      | cons z zs =>
        simp only [pyCharsLt] at h1 h2 ⊢
        have hyx : ¬ y.toNat < x.toNat := by
          intro hc
          rw [if_pos hc] at h1
          exact absurd h1 (by simp)
        have hzy : ¬ z.toNat < y.toNat := by
          intro hc
          rw [if_pos hc] at h2
          exact absurd h2 (by simp)
        have hzx : ¬ z.toNat < x.toNat := by omega
        rw [if_neg hzx]
        by_cases hxz : x.toNat < z.toNat
        · rw [if_pos hxz]
        · rw [if_neg hxz]
          have hxy : ¬ x.toNat < y.toNat := by omega
          have hyz : ¬ y.toNat < z.toNat := by omega
          rw [if_neg hyx, if_neg hxy] at h1
          rw [if_neg hzy, if_neg hyz] at h2
          exact ih ys zs h1 h2

theorem pyStrLt_asymm (a b : String) (h : pyStrLt a b = true) :
    pyStrLt b a = false :=
  pyCharsLt_asymm a.toList b.toList h

theorem pyStrLt_negtrans (a b c : String) (h1 : pyStrLt b a = false)
    (h2 : pyStrLt c b = false) : pyStrLt c a = false :=
  pyCharsLt_negtrans a.toList b.toList c.toList h1 h2

theorem insertRow_perm (x : Row) (l : List Row) :
    (insertRow x l).Perm (x :: l) := by
  induction l with
  | nil => exact List.Perm.refl _
  | cons y ys ih =>
    simp only [insertRow]
    by_cases h : pyStrLt (data_sort y) (data_sort x) = true
    · rw [if_pos h]
      exact (ih.cons y).trans (List.Perm.swap x y ys)
    · rw [if_neg h]

theorem insertRow_pairwise (x : Row) (l : List Row)
    (h : l.Pairwise (fun a b => pyStrLt (data_sort b) (data_sort a) = false)) :
    (insertRow x l).Pairwise
      (fun a b => pyStrLt (data_sort b) (data_sort a) = false) := by
  induction l with
  | nil => simp [insertRow]
  | cons y ys ih =>
    simp only [insertRow]
    rcases List.pairwise_cons.mp h with ⟨hy, hys⟩
    by_cases hc : pyStrLt (data_sort y) (data_sort x) = true
    · rw [if_pos hc]
      refine List.pairwise_cons.mpr ⟨?_, ih hys⟩
      intro z hz
      rcases List.mem_cons.mp ((insertRow_perm x ys).mem_iff.mp hz) with hzx | hzy
      · subst hzx
        exact pyStrLt_asymm _ _ hc
      · exact hy z hzy
    · rw [if_neg hc]
      rw [Bool.not_eq_true] at hc
      refine List.pairwise_cons.mpr ⟨?_, h⟩
      intro z hz
      rcases List.mem_cons.mp hz with hzy | hzys
      · subst hzy
        exact hc
      · exact pyStrLt_negtrans _ _ _ hc (hy z hzys)

theorem sortRows_perm (rows : List Row) : (sortRows rows).Perm rows := by
  induction rows with
  | nil => exact List.Perm.refl _
  | cons r rest ih =>
    exact (insertRow_perm r (sortRows rest)).trans (ih.cons r)

theorem sortRows_pairwise (rows : List Row) :
    (sortRows rows).Pairwise
      (fun a b => pyStrLt (data_sort b) (data_sort a) = false) := by
  induction rows with
  | nil => simp [sortRows]
  | cons r rest ih => exact insertRow_pairwise r (sortRows rest) ih

/-! ## Helper lemmas about the wildcard projection branch -/

theorem mem_keysOf_wildcard_fold (f0 : String) (jd : Row)
    (iter : List (String × PyVal)) (a : String) :
    ∀ acc : Row, a ∈ keysOf (wildcard_fold f0 jd iter acc) ↔
      a ∈ keysOf acc ∨ (wildcard_keep f0 a = true ∧ a ∈ keysOf iter) := by
  induction iter with
  | nil =>
    intro acc
    simp [wildcard_fold, keysOf]
  | cons kv rest ih =>
    intro acc
    simp only [wildcard_fold]
    by_cases hk : wildcard_keep f0 kv.1 = true
    · rw [if_pos hk, ih, mem_keysOf_odSet]
      simp only [keysOf, List.map_cons, List.mem_cons]
      constructor
      · rintro ((hacc | hka) | ⟨hkeep, hrest⟩)
        · exact Or.inl hacc
        · exact Or.inr ⟨hka.symm ▸ hk, Or.inl hka⟩
        · exact Or.inr ⟨hkeep, Or.inr hrest⟩
      · rintro (hacc | ⟨hkeep, hka | hrest⟩)
        · exact Or.inl (Or.inl hacc)
        · exact Or.inl (Or.inr hka)
        · exact Or.inr ⟨hkeep, hrest⟩
    · rw [if_neg hk, ih]
      simp only [keysOf, List.map_cons, List.mem_cons]
      constructor
      · rintro (hacc | ⟨hkeep, hrest⟩)
        · exact Or.inl hacc
        · exact Or.inr ⟨hkeep, Or.inr hrest⟩
      · rintro (hacc | ⟨hkeep, hka | hrest⟩)
        · exact Or.inl hacc
        · exact absurd (hka ▸ hkeep) hk
        · exact Or.inr ⟨hkeep, hrest⟩

/-! ## Helper lemmas about the constants merge of cache_update -/

theorem merge_fold_preserves (full : Row) (cs : List (String × PyVal))
    (a : String) (ha : a ∉ keysOf cs) : ∀ it : Row,
    odLookup (cs.foldl
        (fun it kv => odSet it kv.1 ((odLookup full kv.1).getD .null)) it) a
      = odLookup it a := by
  induction cs with
  | nil => intro it; rfl
  | cons kv rest ih =>
    intro it
    simp only [keysOf, List.map_cons, List.mem_cons] at ha
    push_neg at ha
    simp only [List.foldl_cons]
    rw [ih (by simpa [keysOf] using ha.2)]
    exact odLookup_odSet_ne it kv.1 _ a ha.1

theorem merge_fold_sets (full : Row) : ∀ cs : List (String × PyVal),
    (keysOf cs).Nodup → (∀ kv ∈ cs, odLookup full kv.1 = some kv.2) →
    ∀ it : Row, ∀ kv ∈ cs, odLookup (cs.foldl
        (fun it kv => odSet it kv.1 ((odLookup full kv.1).getD .null)) it) kv.1
      = some kv.2 := by
  intro cs
  induction cs with
  | nil =>
    intro _ _ it kv hkv
    simp at hkv
  | cons c rest ih =>
    intro hn hsub it kv hkv
    simp only [keysOf, List.map_cons, List.nodup_cons] at hn
    simp only [List.foldl_cons]
    rcases List.mem_cons.mp hkv with hkc | hkr
    · subst hkc
      rw [merge_fold_preserves full rest kv.1 (by simpa [keysOf] using hn.1)]
      rw [odLookup_odSet_self, hsub kv (List.mem_cons_self kv rest)]
      rfl
    · exact ih hn.2 (fun kv2 h2 => hsub kv2 (List.mem_cons_of_mem c h2)) _ kv hkr

/-! ## Helper lemmas about the pagination terminal condition -/

theorem nextEndpoint_of_no_link (r : Response) (h : r.link = Option.none) :
    pyTruthy (nextEndpoint r) = false := by
  simp only [nextEndpoint, pagination, h]
  rfl

theorem github_data_from_api_cons_next (s : Session) (r : Response)
    (rest : List Response) (hnx : pyTruthy (nextEndpoint r) = true) :
    github_data_from_api s (r :: rest)
      = ((if response_ok r then r.body else [])
           ++ (github_data_from_api (github_api_update s r) rest).1,
         (github_data_from_api (github_api_update s r) rest).2.1,
         (github_data_from_api (github_api_update s r) rest).2.2 + 1) := by
  simp [github_data_from_api, hnx]

theorem github_data_from_api_cons_last (s : Session) (r : Response)
    (rest : List Response) (hnx : pyTruthy (nextEndpoint r) = false) :
    github_data_from_api s (r :: rest)
      = (if response_ok r then r.body else [], github_api_update s r, 1) := by
  simp [github_data_from_api, hnx]

/-! ## Claim theorems -/

/-- C6: projection with a dotted field name is total and deterministic:
`data_fields` on record `{"a": {"b": 7}}` with field spec `["a.b"]` yields
the ordered mapping `{"a_b": 7}`, and on `{"a": null}` it yields
`{"a_b": None}`; in both cases no error is raised (the `TypeError` /
`KeyError` of the nested lookup is converted to a `None` value under the
flattened key) and the unknown-field slot is untouched. -/
theorem dotted_field_projection :
    data_fields "repo" [("a", PyVal.dict [("b", PyVal.int 7)])] ["a.b"] []
        Option.none
      = ([("a_b", PyVal.int 7)], Option.none)
    ∧ data_fields "repo" [("a", PyVal.null)] ["a.b"] [] Option.none
      = ([("a_b", PyVal.null)], Option.none) :=
  ⟨rfl, rfl⟩

/-- C3 counterexample: projecting the empty record with exact field spec
`["missing"]` (the field is absent from record and constants) yields an
*empty* row — the key is not emitted with a `None` value, contrary to the
claim — while the unknown-field diagnostic slot does record the name. -/
theorem missing_plain_field_cex :
    (data_fields "collab" [] ["missing"] [] Option.none).1 = []
    ∧ ("missing", PyVal.null) ∉ (data_fields "collab" [] ["missing"] [] Option.none).1
    ∧ (data_fields "collab" [] ["missing"] [] Option.none).2 = some "missing" := by
  refine ⟨rfl, ?_, rfl⟩
  intro h
  rw [show (data_fields "collab" [] ["missing"] [] Option.none).1 = [] from rfl] at h
  exact List.not_mem_nil _ h

/-- C3 (amended): in exact-list mode, a plain (non-dotted) field name absent
from the record and from the constants leaves the output row unchanged (the
key is omitted, no `None` is emitted) and records the field name in the
session's unknown-field diagnostic slot, without raising; concretely,
projecting `{"id": 5}` with spec `["id", "zzz"]` yields the row
`{"id": 5}` with `"zzz"` recorded as the unknown field. -/
theorem missing_plain_field_behavior :
    (∀ (jsondata constants values : Row) (unk : Option String) (fldname : String),
       pyContains fldname '.' = false →
       odLookup jsondata fldname = Option.none →
       odHas constants fldname = false →
       data_fields_step jsondata constants (values, unk) fldname
         = (values, some fldname))
    ∧ data_fields "collab" [("id", PyVal.int 5)] ["id", "zzz"] [] Option.none
        = ([("id", PyVal.int 5)], some "zzz") := by
  constructor
  · intro jsondata constants values unk fldname h1 h2 h3
    simp [data_fields_step, h1, h2, h3]
  · rfl

/-- Witness for C3 (amended): the step theorem applied at a concrete
record, constants and field name. -/
theorem missing_plain_field_behavior_witness :
    data_fields_step [("id", PyVal.int 5)] [] ([("id", PyVal.int 5)], Option.none) "zzz"
      = ([("id", PyVal.int 5)], some "zzz") :=
  missing_plain_field_behavior.1 [("id", PyVal.int 5)] [] [("id", PyVal.int 5)]
    Option.none "zzz" rfl rfl rfl

/-- C7 counterexample: the default field list for the `repo` entity is
`['name', 'owner.login']`, not `['owner.login', 'name']` as the claim
states. -/
theorem repo_default_order_cex :
    default_fields "repo" ≠ ["owner.login", "name"] := by
  decide

/-- C7 (amended): an empty/absent field spec substitutes the per-entity
default list — `[name, owner.login]` (in that order) for `repo`,
`[login, id, type, site_admin]` for `member`, `[name, id, privacy,
permission]` for `team` — and the output row's key order follows that
default order (dots flattened to underscores), independent of the record's
own key order. -/
theorem default_field_substitution :
    default_fields "repo" = ["name", "owner.login"]
    ∧ default_fields "member" = ["login", "id", "type", "site_admin"]
    ∧ default_fields "team" = ["name", "id", "privacy", "permission"]
    ∧ keysOf (data_fields "repo"
        [("owner", PyVal.dict [("login", PyVal.str "octo")]),
         ("name", PyVal.str "hello")] [] [] Option.none).1
      = ["name", "owner_login"]
    ∧ keysOf (data_fields "member"
        [("id", PyVal.int 1), ("login", PyVal.str "octo"),
         ("site_admin", PyVal.bool false), ("type", PyVal.str "User")]
        [] [] Option.none).1
      = ["login", "id", "type", "site_admin"]
    ∧ keysOf (data_fields "team"
        [("id", PyVal.int 2), ("name", PyVal.str "t"),
         ("permission", PyVal.str "pull"), ("privacy", PyVal.str "closed")]
        [] [] Option.none).1
      = ["name", "id", "privacy", "permission"] :=
  ⟨rfl, rfl, rfl, rfl, rfl, rfl⟩

/-- C8 counterexample: two endpoints that differ only in their query string
(the bare endpoint and its `?page=2` pagination variant) produce *different*
cache filenames — `cache_filename` does not strip query strings. -/
theorem cache_filename_query_cex :
    cache_filename "/orgs/foo/repos?page=2" Option.none "user"
      ≠ cache_filename "/orgs/foo/repos" Option.none "user" := by
  decide

/-- C5: for every record (any entity, no constants), the key set of the
`["urls"]` projection and the key set of the `["nourls"]` projection are
disjoint, and together they cover exactly the record's top-level keys. -/
theorem urls_nourls_partition (entity : String) (jd : Row) (a : String) :
    ¬ (a ∈ keysOf (data_fields entity jd ["urls"] [] Option.none).1
       ∧ a ∈ keysOf (data_fields entity jd ["nourls"] [] Option.none).1)
    ∧ ((a ∈ keysOf (data_fields entity jd ["urls"] [] Option.none).1
        ∨ a ∈ keysOf (data_fields entity jd ["nourls"] [] Option.none).1)
       ↔ a ∈ keysOf jd) := by
  have hu : (data_fields entity jd ["urls"] [] Option.none).1
      = wildcard_fold "urls" jd jd [] := rfl
  have hn : (data_fields entity jd ["nourls"] [] Option.none).1
      = wildcard_fold "nourls" jd jd [] := rfl
  have hku : wildcard_keep "urls" a = pyEndswith a "url" := by
    unfold wildcard_keep
    cases h : pyEndswith a "url" <;> decide
  have hkn : wildcard_keep "nourls" a = !pyEndswith a "url" := by
    unfold wildcard_keep
    cases h : pyEndswith a "url" <;> decide
  rw [hu, hn, mem_keysOf_wildcard_fold, mem_keysOf_wildcard_fold, hku, hkn]
  cases he : pyEndswith a "url" <;> simp [keysOf, he]

/-- C4: the subcommand handlers sort the projected rows with `sorted(...,
key=data_sort)` — by the single key "stringified, lower-cased value of the
row's first entry": the result is a permutation of the rows, ordered by
that key; consequently the same two records projected with field specs
`["login","id"]` and `["id","login"]` (differing only in which field comes
first) come out in different row orders — the first requested field is the
sort key. -/
theorem result_assembler_sort :
    (∀ rows : List Row, rows ≠ [] → (∀ r ∈ rows, r ≠ []) →
       (sortRows rows).Perm rows
       ∧ (sortRows rows).Pairwise
           (fun a b => pyStrLt (data_sort b) (data_sort a) = false))
    ∧ sortRows
        [(data_fields "member" [("login", PyVal.str "zed"), ("id", PyVal.int 1)]
            ["login", "id"] [] Option.none).1,
         (data_fields "member" [("login", PyVal.str "abe"), ("id", PyVal.int 2)]
            ["login", "id"] [] Option.none).1]
      = [(data_fields "member" [("login", PyVal.str "abe"), ("id", PyVal.int 2)]
            ["login", "id"] [] Option.none).1,
         (data_fields "member" [("login", PyVal.str "zed"), ("id", PyVal.int 1)]
            ["login", "id"] [] Option.none).1]
    ∧ sortRows
        [(data_fields "member" [("login", PyVal.str "zed"), ("id", PyVal.int 1)]
            ["id", "login"] [] Option.none).1,
         (data_fields "member" [("login", PyVal.str "abe"), ("id", PyVal.int 2)]
            ["id", "login"] [] Option.none).1]
      = [(data_fields "member" [("login", PyVal.str "zed"), ("id", PyVal.int 1)]
            ["id", "login"] [] Option.none).1,
         (data_fields "member" [("login", PyVal.str "abe"), ("id", PyVal.int 2)]
            ["id", "login"] [] Option.none).1] := by
  exact ⟨fun rows _ _ => ⟨sortRows_perm rows, sortRows_pairwise rows⟩, rfl, rfl⟩

/-- Witness for C4: the sorting statement applied to a concrete non-empty
row list. -/
theorem result_assembler_sort_witness :
    (sortRows [[("login", PyVal.str "abe"), ("id", PyVal.int 2)]]).Perm
        [[("login", PyVal.str "abe"), ("id", PyVal.int 2)]]
    ∧ (sortRows [[("login", PyVal.str "abe"), ("id", PyVal.int 2)]]).Pairwise
        (fun a b => pyStrLt (data_sort b) (data_sort a) = false) :=
  result_assembler_sort.1 [[("login", PyVal.str "abe"), ("id", PyVal.int 2)]]
    (by simp)
    (by intro r hr; rw [List.mem_singleton] at hr; subst hr; simp)

/-- C9: for a non-empty payload and non-empty constants (with distinct
keys, as a Python dict has), `cache_update` persists — under the cache
filename of the endpoint — a record list in which *every* record contains
*every* constants key with its constants value: the source's merge loop
mutates the payload dicts in place before `write_json` runs. -/
theorem cache_update_merges_constants (endpoint : String) (payload : List Row)
    (constants : Row) (username : String)
    (hp : payload ≠ []) (hc : constants ≠ [])
    (hn : (keysOf constants).Nodup) :
    ∃ w, cache_update endpoint payload constants username = some w
      ∧ w.1 = cache_filename endpoint Option.none username
      ∧ ∀ item ∈ w.2, ∀ kv ∈ constants, odLookup item kv.1 = some kv.2 := by
  have hcne : constants.isEmpty = false := by
    cases constants with
    | nil => exact absurd rfl hc
    | cons c cs => rfl
  have hnc : (cache_update_payload payload constants).isEmpty = false := by
    cases payload with
    | nil => exact absurd rfl hp
    | cons p ps => simp [cache_update_payload, hcne]
  refine ⟨(cache_filename endpoint Option.none username,
           cache_update_payload payload constants), ?_, rfl, ?_⟩
  · simp [cache_update, hnc]
  · intro item hitem kv hkv
    simp only [cache_update_payload, hcne, Bool.not_false, if_pos] at hitem
    rcases List.mem_map.mp hitem with ⟨orig, _, rfl⟩
    exact merge_fold_sets constants constants hn
      (odLookup_self_of_nodup constants hn) orig kv hkv

/-- Witness for C9: `cache_update` at a concrete endpoint, payload and
constants dict. -/
theorem cache_update_merges_constants_witness :
    ∃ w, cache_update "/orgs/foo/repos" [[("name", PyVal.str "r1")]]
        [("org", PyVal.str "foo")] "user" = some w
      ∧ w.1 = cache_filename "/orgs/foo/repos" Option.none "user"
      ∧ ∀ item ∈ w.2, ∀ kv ∈ ([("org", PyVal.str "foo")] : Row),
          odLookup item kv.1 = some kv.2 :=
  cache_update_merges_constants "/orgs/foo/repos" [[("name", PyVal.str "r1")]]
    [("org", PyVal.str "foo")] "user" (by simp) (by simp) (by simp [keysOf])

/-- C1 counterexample: a single response with status 302 — `ok` for the
requests library (302 < 400) but not 2xx — and no `Link` header satisfies
the claim's hypotheses, yet the fetch loop accumulates its one-record body
while the claim's "sum over 2xx responses" is 0. -/
theorem pagination_2xx_count_cex :
    WellPaged [Response.mk 302 [[("id", PyVal.int 1)]] Option.none Option.none]
    ∧ (github_data_from_api (Session.mk "" "a" 0 0 0 0 Option.none)
        [Response.mk 302 [[("id", PyVal.int 1)]] Option.none Option.none]).1.length
      = 1
    ∧ ([Response.mk 302 [[("id", PyVal.int 1)]] Option.none Option.none].map
        (fun r => if 200 ≤ r.status ∧ r.status < 300 then r.body.length else 0)).sum
      = 0 :=
  ⟨rfl, rfl, rfl⟩

/-- C1 (amended): for every response sequence in which every non-final
response announces a truthy next cursor and the final response carries no
`Link` header, the paginated fetch loop terminates (the embedding is a
total function) and returns exactly the concatenation, in page order, of
the JSON-array bodies of the responses that are *ok* in the requests sense
(status < 400 — not only 2xx); in particular its length is the sum of the
per-page record counts of those ok pages. -/
theorem pagination_termination_count (s : Session) (rs : List Response)
    (h : WellPaged rs) :
    (github_data_from_api s rs).1
        = (rs.map (fun r => if response_ok r then r.body else [])).flatten
    ∧ (github_data_from_api s rs).1.length
        = (rs.map (fun r => if response_ok r then r.body.length else 0)).sum := by
  induction rs generalizing s with
  | nil => simp [github_data_from_api]
  | cons r rest ih =>
    cases rest with
    | nil =>
      have hl : r.link = Option.none := h
      have hnx := nextEndpoint_of_no_link r hl
      rw [github_data_from_api_cons_last s r [] hnx]
      constructor
      · simp
      · cases hok : response_ok r <;> simp [hok]
    | cons r2 rest2 =>
      have h2 : pyTruthy (nextEndpoint r) = true ∧ WellPaged (r2 :: rest2) := h
      obtain ⟨hnext, hwp⟩ := h2
      have hih := ih hwp (s := github_api_update s r)
      rw [github_data_from_api_cons_next s r (r2 :: rest2) hnext]
      constructor
      · simp only [List.map_cons, List.flatten_cons]
        rw [hih.1]
        simp
      · simp only [List.map_cons, List.sum_cons, List.length_append]
        rw [hih.2]
        cases hok : response_ok r <;> simp [hok]

/-- Witness for C1 (amended): a two-page sequence — page 1 with a truthy
`next` cursor in its `Link` header, page 2 with none — fetched from a fresh
session. -/
theorem pagination_termination_count_witness :
    WellPaged
      [Response.mk 200 [[("name", PyVal.str "r1")]]
         (some "<https://api.github.com/x?page=2>; rel=\"next\"") (some (60, 59)),
       Response.mk 200 [[("name", PyVal.str "r2")]] Option.none (some (60, 58))]
    ∧ ((github_data_from_api (Session.mk "" "a" 0 0 0 0 Option.none)
          [Response.mk 200 [[("name", PyVal.str "r1")]]
             (some "<https://api.github.com/x?page=2>; rel=\"next\"") (some (60, 59)),
           Response.mk 200 [[("name", PyVal.str "r2")]] Option.none (some (60, 58))]).1
        = ([Response.mk 200 [[("name", PyVal.str "r1")]]
              (some "<https://api.github.com/x?page=2>; rel=\"next\"") (some (60, 59)),
            Response.mk 200 [[("name", PyVal.str "r2")]] Option.none
              (some (60, 58))].map
            (fun r => if response_ok r then r.body else [])).flatten
      ∧ ((github_data_from_api (Session.mk "" "a" 0 0 0 0 Option.none)
          [Response.mk 200 [[("name", PyVal.str "r1")]]
             (some "<https://api.github.com/x?page=2>; rel=\"next\"") (some (60, 59)),
           Response.mk 200 [[("name", PyVal.str "r2")]] Option.none
             (some (60, 58))]).1).length
        = ([Response.mk 200 [[("name", PyVal.str "r1")]]
              (some "<https://api.github.com/x?page=2>; rel=\"next\"") (some (60, 59)),
            Response.mk 200 [[("name", PyVal.str "r2")]] Option.none
              (some (60, 58))].map
            (fun r => if response_ok r then r.body.length else 0)).sum) :=
  ⟨⟨rfl, rfl⟩,
   pagination_termination_count (Session.mk "" "a" 0 0 0 0 Option.none) _ ⟨rfl, rfl⟩⟩

/-- C2 counterexample: a response with status 302 is non-2xx, yet — being
`ok` for the requests library — its page body IS appended to the payload:
the fetch over [302-page with next cursor, terminal 200-page] returns both
pages' records, not only the final page's. -/
theorem non2xx_page_contribution_cex :
    (github_data_from_api (Session.mk "" "a" 0 0 0 0 Option.none)
        [Response.mk 302 [[("k", PyVal.null)]]
           (some "<https://api.github.com/x?page=2>; rel=\"next\"") Option.none,
         Response.mk 200 [[("n", PyVal.int 2)]] Option.none Option.none]).1
      = [[("k", PyVal.null)], [("n", PyVal.int 2)]]
    ∧ ¬ (200 ≤ 302 ∧ 302 < 300) :=
  ⟨rfl, by omega⟩

/-- C2 (amended): a response that is not ok (`response.ok` false, i.e.
status ≥ 400) contributes zero records to the accumulator and raises no
exception (the body is never parsed), and the loop still parses the failed
response's pagination header: if its next cursor is truthy the loop
continues with the remaining responses, otherwise the fetch ends with the
records accumulated so far — it does not abort the whole fetch. -/
theorem nonok_page_contributes_zero (s : Session) (r : Response)
    (rest : List Response) (h : response_ok r = false) :
    (pyTruthy (nextEndpoint r) = true →
       (github_data_from_api s (r :: rest)).1
         = (github_data_from_api (github_api_update s r) rest).1)
    ∧ (pyTruthy (nextEndpoint r) = false →
       (github_data_from_api s (r :: rest)).1 = []) := by
  constructor
  · intro hnx
    simp [github_data_from_api, h, hnx]
  · intro hnx
    simp [github_data_from_api, h, hnx]

/-- Witness for C2 (amended): a 404 page carrying a next cursor followed by
a terminal 200 page. -/
theorem nonok_page_contributes_zero_witness :
    (github_data_from_api (Session.mk "" "a" 0 0 0 0 Option.none)
        [Response.mk 404 [[("name", PyVal.str "bad")]]
           (some "<https://api.github.com/x?page=2>; rel=\"next\"") Option.none,
         Response.mk 200 [[("name", PyVal.str "r2")]] Option.none Option.none]).1
      = (github_data_from_api
          (github_api_update (Session.mk "" "a" 0 0 0 0 Option.none)
            (Response.mk 404 [[("name", PyVal.str "bad")]]
              (some "<https://api.github.com/x?page=2>; rel=\"next\"") Option.none))
          [Response.mk 200 [[("name", PyVal.str "r2")]] Option.none Option.none]).1 :=
  (nonok_page_contributes_zero (Session.mk "" "a" 0 0 0 0 Option.none)
    (Response.mk 404 [[("name", PyVal.str "bad")]]
      (some "<https://api.github.com/x?page=2>; rel=\"next\"") Option.none)
    [Response.mk 200 [[("name", PyVal.str "r2")]] Option.none Option.none]
    rfl).1 rfl

/-- Helper for C8: any write performed by `cache_update` goes to the cache
filename derived from the endpoint it was called with. -/
theorem cache_update_key (endpoint : String) (payload : List Row)
    (constants : Row) (username : String) (w : String × List Row)
    (hw : cache_update endpoint payload constants username = some w) :
    w.1 = cache_filename endpoint Option.none username := by
  unfold cache_update at hw
  by_cases he : (cache_update_payload payload constants).isEmpty = true
  · rw [if_pos he] at hw
    exact absurd hw (by simp)
  · rw [if_neg he] at hw
    have h2 := Option.some_inj.mp hw
    rw [← h2]

/-- C8 (amended): `cache_filename` does *not* strip query strings (see the
counterexample), but paginated variants of an endpoint still share a single
cache file because the cache is keyed by the first page's endpoint form
only: in live mode, whatever responses (and hence whatever paginated `next`
URLs) the fetch loop walks, any cache write `github_data` performs goes to
`cache_filename` of the endpoint originally requested. -/
theorem live_cache_write_uses_request_endpoint (endpoint entity : String)
    (fields : List String) (constants : Row) (s : Session) (cache : Cache)
    (responses : List Response) (choice : String) (w : String × List Row)
    (hds : s.datasource = "a")
    (hw : (github_data endpoint entity fields constants s cache responses
            choice).cacheWrite = some w) :
    w.1 = cache_filename endpoint Option.none s.username := by
  unfold github_data at hw
  rw [hds] at hw
  simp at hw
  exact cache_update_key _ _ _ _ _ hw

/-- Witness for C8 (amended): a live one-page fetch of `/orgs/foo/repos`
writes the cache under that endpoint's filename. -/
theorem live_cache_write_uses_request_endpoint_witness :
    (("gh_cache/_anon_orgs-foo-repos.json", [[("name", PyVal.str "r1")]])
        : String × List Row).1
      = cache_filename "/orgs/foo/repos" Option.none
          (Session.mk "" "a" 0 0 0 0 Option.none).username :=
  live_cache_write_uses_request_endpoint "/orgs/foo/repos" "repo" [] []
    (Session.mk "" "a" 0 0 0 0 Option.none) []
    [Response.mk 200 [[("name", PyVal.str "r1")]] Option.none Option.none] "p"
    ("gh_cache/_anon_orgs-foo-repos.json", [[("name", PyVal.str "r1")]])
    rfl rfl

/-- C10: in cache mode (`datasource = 'c'`) with an existing cache entry,
`github_data` performs no transport call (zero `github_api` invocations),
leaves every session counter unchanged (`tot_api_calls`, `tot_api_bytes`,
`last_ratelimit`, `last_remaining`), performs no cache write, and its
result is exactly the projection of the records read from the cache
file. -/
theorem cache_mode_frame (endpoint entity : String) (fields : List String)
    (constants : Row) (s : Session) (cache : Cache) (responses : List Response)
    (choice : String) (items : List Row)
    (hds : s.datasource = "c")
    (hcc : cacheGet cache (cache_filename endpoint Option.none s.username)
            = some items) :
    (github_data endpoint entity fields constants s cache responses choice).apiCalls
      = 0
    ∧ (github_data endpoint entity fields constants s cache responses
        choice).session.tot_api_calls = s.tot_api_calls
    ∧ (github_data endpoint entity fields constants s cache responses
        choice).session.tot_api_bytes = s.tot_api_bytes
    ∧ (github_data endpoint entity fields constants s cache responses
        choice).session.last_ratelimit = s.last_ratelimit
    ∧ (github_data endpoint entity fields constants s cache responses
        choice).session.last_remaining = s.last_remaining
    ∧ (github_data endpoint entity fields constants s cache responses
        choice).cacheWrite = Option.none
    ∧ (github_data endpoint entity fields constants s cache responses
        choice).rows
      = (project_all entity fields constants items s.unknownfieldname).1 := by
  unfold github_data
  rw [hds]
  simp [hcc]

/-- Witness for C10: a cache-mode session with one cached record makes no
transport call, keeps its counters, writes nothing and returns the
projection of the cached record. -/
theorem cache_mode_frame_witness :
    (github_data "/orgs/foo/repos" "repo" ["name"] []
        (Session.mk "user" "c" 3 100 60 55 Option.none)
        [("gh_cache/user_orgs-foo-repos.json", [[("name", PyVal.str "c1")]])]
        [] "p").apiCalls = 0
    ∧ (github_data "/orgs/foo/repos" "repo" ["name"] []
        (Session.mk "user" "c" 3 100 60 55 Option.none)
        [("gh_cache/user_orgs-foo-repos.json", [[("name", PyVal.str "c1")]])]
        [] "p").session.tot_api_calls
      = (Session.mk "user" "c" 3 100 60 55 Option.none).tot_api_calls
    ∧ (github_data "/orgs/foo/repos" "repo" ["name"] []
        (Session.mk "user" "c" 3 100 60 55 Option.none)
        [("gh_cache/user_orgs-foo-repos.json", [[("name", PyVal.str "c1")]])]
        [] "p").session.tot_api_bytes
      = (Session.mk "user" "c" 3 100 60 55 Option.none).tot_api_bytes
    ∧ (github_data "/orgs/foo/repos" "repo" ["name"] []
        (Session.mk "user" "c" 3 100 60 55 Option.none)
        [("gh_cache/user_orgs-foo-repos.json", [[("name", PyVal.str "c1")]])]
        [] "p").session.last_ratelimit
      = (Session.mk "user" "c" 3 100 60 55 Option.none).last_ratelimit
    ∧ (github_data "/orgs/foo/repos" "repo" ["name"] []
        (Session.mk "user" "c" 3 100 60 55 Option.none)
        [("gh_cache/user_orgs-foo-repos.json", [[("name", PyVal.str "c1")]])]
        [] "p").session.last_remaining
      = (Session.mk "user" "c" 3 100 60 55 Option.none).last_remaining
    ∧ (github_data "/orgs/foo/repos" "repo" ["name"] []
        (Session.mk "user" "c" 3 100 60 55 Option.none)
        [("gh_cache/user_orgs-foo-repos.json", [[("name", PyVal.str "c1")]])]
        [] "p").cacheWrite = Option.none
    ∧ (github_data "/orgs/foo/repos" "repo" ["name"] []
        (Session.mk "user" "c" 3 100 60 55 Option.none)
        [("gh_cache/user_orgs-foo-repos.json", [[("name", PyVal.str "c1")]])]
        [] "p").rows
      = (project_all "repo" ["name"] [] [[("name", PyVal.str "c1")]]
          (Session.mk "user" "c" 3 100 60 55 Option.none).unknownfieldname).1 :=
  cache_mode_frame "/orgs/foo/repos" "repo" ["name"] []
    (Session.mk "user" "c" 3 100 60 55 Option.none)
    [("gh_cache/user_orgs-foo-repos.json", [[("name", PyVal.str "c1")]])]
    [] "p" [[("name", PyVal.str "c1")]] rfl rfl

end Gitdata
